import Mathlib

/-!
Verification development for the Express backend template: a shallow
embedding of the authentication service (src/services/authService.ts),
the auth middleware (src/common/middlewares/authMiddleware.ts), the
auth model constants (src/models/auth.ts), the user helpers
(src/models/user.ts) and the error classes (src/common/errors/ApiErrors.ts).

The Prisma-backed relational store is modelled as in-memory lists inside a
`DB` record; every service operation is a pure function from a `DB` and the
current instant to a new `DB` paired with an `Except` result, mirroring the
sequence of awaited store calls in the source (each operation is one
logical task, so the sequence of awaits is a single state transformation).
The bcrypt and jsonwebtoken libraries are modelled by their observable
contracts.  Instants are points on one abstract timeline (`Nat`, read as
milliseconds since the epoch).  Random values (the opaque refresh tokens
produced by `randomBytes(64)`, and the cuid identifiers produced by the
store) are modelled by fresh counters carried in the `DB`.
-/

/-! ## HTTP status codes (src/common/constants/HttpStatusCodes.ts) -/

namespace HttpStatusCodes

def OK : Nat := 200
def CREATED : Nat := 201
def BAD_REQUEST : Nat := 400
def UNAUTHORIZED : Nat := 401
def FORBIDDEN : Nat := 403
def NOT_FOUND : Nat := 404
def METHOD_NOT_ALLOWED : Nat := 405
def CONFLICT : Nat := 409
def INTERNAL_SERVER_ERROR : Nat := 500

end HttpStatusCodes

/-! ## Error classes (src/common/errors/ApiErrors.ts) -/

/-- Model of the ApiError class hierarchy: a thrown error value carrying the
constructor name, message, HTTP status code and machine code. -/
structure ApiError where
  name : String
  message : String
  statusCode : Nat
  code : String
deriving Repr, DecidableEq

/-- UnauthorizedError: 401, code UNAUTHORIZED. -/
def UnauthorizedError (message : String) : ApiError :=
  { name := "UnauthorizedError", message := message,
    statusCode := HttpStatusCodes.UNAUTHORIZED, code := "UNAUTHORIZED" }

/-- NotFoundError: 404, code NOT_FOUND. -/
def NotFoundError (message : String) : ApiError :=
  { name := "NotFoundError", message := message,
    statusCode := HttpStatusCodes.NOT_FOUND, code := "NOT_FOUND" }

/-- ConflictError: 409, code CONFLICT.  Present in ApiErrors.ts; the auth
service never constructs it. -/
def ConflictError (message : String) : ApiError :=
  { name := "ConflictError", message := message,
    statusCode := HttpStatusCodes.CONFLICT, code := "CONFLICT" }

/-- InternalServerError: 500, code INTERNAL_SERVER_ERROR.  Also the shape the
centralized error responder gives to unrecognized thrown values such as a
store unique-constraint failure. -/
def InternalServerError (message : String) : ApiError :=
  { name := "InternalServerError", message := message,
    statusCode := HttpStatusCodes.INTERNAL_SERVER_ERROR, code := "INTERNAL_SERVER_ERROR" }

/-! ## Auth error messages (src/models/auth.ts, AUTH_ERRORS) -/

namespace AUTH_ERRORS

def INVALID_CREDENTIALS : String := "Invalid email or password"
def USER_NOT_FOUND : String := "User not found"
def USER_INACTIVE : String := "Account is deactivated"
def INVALID_TOKEN : String := "Invalid or expired token"
def TOKEN_EXPIRED : String := "Token has expired"
def SESSION_EXPIRED : String := "Session has expired"
def UNAUTHORIZED : String := "Unauthorized access"
def INSUFFICIENT_PERMISSIONS : String := "Insufficient permissions"
def EMAIL_ALREADY_EXISTS : String := "Email already exists"
def USERNAME_ALREADY_EXISTS : String := "Username already exists"

end AUTH_ERRORS

/-! ## bcryptjs model

A bcrypt hash embeds a salted digest of the plaintext; its observable
contract is that `compare(plain, hash(p, cost))` succeeds exactly when
`plain = p`.  The hash value is modelled as an opaque constructor holding
the hashed plaintext and cost factor. -/

inductive Hash where
  | bcrypt (plain : String) (cost : Nat)
deriving Repr, DecidableEq

/-- Model of `bcrypt.hash(plain, cost)`. -/
def bcryptHash (plain : String) (cost : Nat) : Hash := Hash.bcrypt plain cost

/-- Model of `bcrypt.compare(plain, hash)`. -/
def bcryptCompare (plain : String) (h : Hash) : Bool :=
  match h with
  | Hash.bcrypt p _ => plain == p

/-! ## jsonwebtoken model

`jwt.sign` produces a signed structure; `jwt.verify` checks the signature
against the secret and the expiry against the clock.  In the jsonwebtoken
library both `TokenExpiredError` and `NotBeforeError` are subclasses of
`JsonWebTokenError`, so an `instanceof JsonWebTokenError` test is true for
an expired-token error as well; the `instanceOf` functions below record
that class hierarchy. -/

structure JwtPayload where
  sub : String
  email : String
  roles : List String
deriving Repr, DecidableEq

inductive AccessToken where
  | signed (payload : JwtPayload) (iat : Nat) (exp : Nat) (key : String)
  | malformed (raw : String)
deriving Repr, DecidableEq

inductive JwtVerifyError where
  | jsonWebTokenError (msg : String)
  | tokenExpiredError (expiredAt : Nat)
deriving Repr, DecidableEq

/-- Every jsonwebtoken verify error is an instance of JsonWebTokenError:
TokenExpiredError extends JsonWebTokenError in the library. -/
def JwtVerifyError.instanceOfJsonWebTokenError : JwtVerifyError → Bool :=
  fun _ => true

/-- Only the expired-token error is an instance of TokenExpiredError. -/
def JwtVerifyError.instanceOfTokenExpiredError : JwtVerifyError → Bool
  | JwtVerifyError.tokenExpiredError _ => true
  | _ => false

/-- Model of `jwt.verify(token, secret)` at instant `now`: malformed input or
a signature made with a different key raises JsonWebTokenError; an elapsed
expiry raises TokenExpiredError; otherwise the decoded payload is returned. -/
def jwtVerify (token : AccessToken) (secret : String) (now : Nat) :
    Except JwtVerifyError JwtPayload :=
  match token with
  | AccessToken.malformed _ =>
      Except.error (JwtVerifyError.jsonWebTokenError "jwt malformed")
  | AccessToken.signed payload _ exp key =>
      if key ≠ secret then
        Except.error (JwtVerifyError.jsonWebTokenError "invalid signature")
      else if exp ≤ now then
        Except.error (JwtVerifyError.tokenExpiredError exp)
      else
        Except.ok payload

/-- Model of `jwt.sign(payload, secret, { expiresIn })`. -/
def jwtSign (payload : JwtPayload) (secret : String) (now : Nat) (expiresIn : Nat) :
    AccessToken :=
  AccessToken.signed payload now (now + expiresIn) secret

/-! ## Data model (prisma/schema.prisma rows as used by the auth flow) -/

structure Role where
  id : String
  name : String
  displayName : String
deriving Repr, DecidableEq

/-- A UserRole assignment joined with its Role, as produced by the
`userRoles: { include: { role: true } }` query shape. -/
structure UserRoleEntry where
  role : Role
deriving Repr, DecidableEq

structure User where
  id : String
  email : String
  username : Option String
  password : Hash
  firstName : Option String
  lastName : Option String
  isActive : Bool
  lastLogin : Option Nat
  createdAt : Nat
  updatedAt : Nat
  userRoles : List UserRoleEntry
deriving Repr, DecidableEq

structure Session where
  id : Nat
  userId : String
  refreshToken : Nat
  expiresAt : Nat
  isRevoked : Bool
  createdAt : Nat
  updatedAt : Nat
deriving Repr, DecidableEq

structure AuditLog where
  userId : String
  action : String
  createdAt : Nat
deriving Repr, DecidableEq

/-- The relational store.  `nextUserId`, `nextSessionId` model the ids the
store assigns to created rows; `nextToken` models the entropy source behind
`randomBytes(64)`: each draw is a value never produced before. -/
structure DB where
  users : List User
  sessions : List Session
  auditLogs : List AuditLog
  nextUserId : Nat
  nextSessionId : Nat
  nextToken : Nat
deriving Repr, DecidableEq

/-! ## Request and response shapes (src/models/auth.ts, src/models/user.ts) -/

structure LoginRequest where
  email : String
  password : String
  rememberMe : Bool
deriving Repr, DecidableEq

structure RegisterRequest where
  email : String
  password : String
  firstName : Option String
  lastName : Option String
  username : Option String
deriving Repr, DecidableEq

structure ChangePasswordRequest where
  currentPassword : String
  newPassword : String
deriving Repr, DecidableEq

structure RefreshTokenRequest where
  refreshToken : Nat
deriving Repr, DecidableEq

structure RoleInfo where
  id : String
  name : String
  displayName : String
deriving Repr, DecidableEq

structure UserResponse where
  id : String
  email : String
  username : Option String
  firstName : Option String
  lastName : Option String
  isActive : Bool
  createdAt : Nat
  updatedAt : Nat
  lastLogin : Option Nat
  roles : List RoleInfo
deriving Repr, DecidableEq

structure TokenPair where
  accessToken : AccessToken
  refreshToken : Nat
  expiresIn : Nat
deriving Repr, DecidableEq

structure AuthResponse where
  user : UserResponse
  tokens : TokenPair
deriving Repr, DecidableEq

/-- transformUserToResponse from src/models/user.ts. -/
def transformUserToResponse (user : User) : UserResponse :=
  { id := user.id, email := user.email, username := user.username,
    firstName := user.firstName, lastName := user.lastName,
    isActive := user.isActive, createdAt := user.createdAt,
    updatedAt := user.updatedAt, lastLogin := user.lastLogin,
    roles := user.userRoles.map (fun ur =>
      { id := ur.role.id, name := ur.role.name, displayName := ur.role.displayName }) }

/-- userHasAnyRole from src/models/user.ts:
`user.userRoles.some(ur => roleNames.includes(ur.role.name))`. -/
def userHasAnyRole (user : User) (roleNames : List String) : Bool :=
  user.userRoles.any (fun ur => roleNames.contains ur.role.name)

/-! ## Session expiry constants (src/models/auth.ts) -/

/-- SESSION_EXPIRY.DEFAULT: 7 days, in seconds. -/
def SESSION_EXPIRY_DEFAULT : Nat := 7 * 24 * 60 * 60

/-- SESSION_EXPIRY.REMEMBER_ME: 30 days, in seconds. -/
def SESSION_EXPIRY_REMEMBER_ME : Nat := 30 * 24 * 60 * 60

/-- JWT_CONFIG.ACCESS_TOKEN_EXPIRES_IN, 15 minutes, expressed on the model
timeline in milliseconds. -/
def ACCESS_TOKEN_EXPIRES_MS : Nat := 15 * 60 * 1000

/-! ## Auth service (src/services/authService.ts)

Each method is a function `DB → ... → DB × Except ApiError result`; a thrown
ApiError is the `Except.error` component, and the first component is the
store state after the call. -/

namespace AuthService

/-- The fixed bcrypt cost factor of the service. -/
def saltRounds : Nat := 12

/-- Role names encoded into the token payload:
`user.userRoles.map(ur => ur.role.name)`. -/
def roleNamesOf (user : User) : List String :=
  user.userRoles.map (fun ur => ur.role.name)

/-- generateTokens: signs a 15-minute access token over {sub, email, roles}
and draws a fresh opaque refresh token (`fresh` is the value the entropy
source produces).  No side effects. -/
def generateTokens (user : User) (secret : String) (now : Nat) (fresh : Nat) :
    TokenPair :=
  { accessToken := jwtSign
      { sub := user.id, email := user.email, roles := roleNamesOf user }
      secret now ACCESS_TOKEN_EXPIRES_MS,
    refreshToken := fresh,
    expiresIn := 15 * 60 }

/-- createSession: inserts a session row with
`expiresAt = Date.now() + expirySeconds * 1000`. -/
def createSession (db : DB) (userId : String) (refreshToken : Nat)
    (rememberMe : Bool) (now : Nat) : DB :=
  let expirySeconds := if rememberMe then SESSION_EXPIRY_REMEMBER_ME else SESSION_EXPIRY_DEFAULT
  { db with
    sessions := { id := db.nextSessionId, userId := userId,
                  refreshToken := refreshToken,
                  expiresAt := now + expirySeconds * 1000,
                  isRevoked := false, createdAt := now, updatedAt := now }
                :: db.sessions,
    nextSessionId := db.nextSessionId + 1 }

/-- logAuditEvent: best-effort insert into the audit log; in the source a
failure is swallowed, so the model is a plain insert. -/
def logAuditEvent (db : DB) (userId : String) (action : String) (now : Nat) : DB :=
  { db with auditLogs := { userId := userId, action := action, createdAt := now }
                         :: db.auditLogs }

/-- The `prisma.user.findFirst` filter used by register:
`OR: [{email}, ...(data.username ? [{username}] : [])]`. -/
def registerMatches (data : RegisterRequest) (u : User) : Bool :=
  u.email == data.email ||
    (match data.username with
     | some un => u.username == some un
     | none => false)

/-- JavaScript strict equality between a nullable stored username and a
possibly-undefined request username: `null === undefined` is false, so the
comparison succeeds only when both are present and equal. -/
def jsStrictEqOpt (a b : Option String) : Bool :=
  match a, b with
  | some x, some y => x == y
  | _, _ => false

/-- Model of `prisma.user.create`: the store enforces the unique constraints
on email and username; a violation raises a store error that surfaces from
the centralized responder as InternalServerError. -/
def prismaCreateUser (db : DB) (u : User) : Except ApiError DB :=
  if db.users.any (fun v =>
      v.email == u.email || (u.username.isSome && v.username == u.username)) then
    Except.error (InternalServerError "Internal server error")
  else
    Except.ok { db with users := u :: db.users, nextUserId := db.nextUserId + 1 }

/-- The creation tail of register: hash the password, create the user row
(active by schema default, no roles), issue tokens, create the session,
write the audit entry. -/
def registerCreate (db : DB) (secret : String) (now : Nat) (data : RegisterRequest) :
    DB × Except ApiError AuthResponse :=
  let hashedPassword := bcryptHash data.password saltRounds
  let newUser : User :=
    { id := "user-" ++ toString db.nextUserId,
      email := data.email, username := data.username,
      password := hashedPassword,
      firstName := data.firstName, lastName := data.lastName,
      isActive := true, lastLogin := none,
      createdAt := now, updatedAt := now, userRoles := [] }
  match prismaCreateUser db newUser with
  | Except.error e => (db, Except.error e)
  | Except.ok db1 =>
      let tokens := generateTokens newUser secret now db1.nextToken
      let db2 := { db1 with nextToken := db1.nextToken + 1 }
      let db3 := createSession db2 newUser.id tokens.refreshToken false now
      let db4 := logAuditEvent db3 newUser.id "register" now
      (db4, Except.ok { user := transformUserToResponse newUser, tokens := tokens })

/-- register: checks for an existing user matching the email or the given
username; a duplicate email raises UnauthorizedError(EMAIL_ALREADY_EXISTS)
and a duplicate username raises UnauthorizedError(USERNAME_ALREADY_EXISTS);
otherwise execution falls through to the creation tail. -/
def register (db : DB) (secret : String) (now : Nat) (data : RegisterRequest) :
    DB × Except ApiError AuthResponse :=
  match db.users.find? (registerMatches data) with
  | some existingUser =>
      if existingUser.email == data.email then
        (db, Except.error (UnauthorizedError AUTH_ERRORS.EMAIL_ALREADY_EXISTS))
      else if jsStrictEqOpt existingUser.username data.username then
        (db, Except.error (UnauthorizedError AUTH_ERRORS.USERNAME_ALREADY_EXISTS))
      else
        registerCreate db secret now data
  | none => registerCreate db secret now data

/-- login: find the user by email; absent user and password mismatch raise
the same UnauthorizedError(INVALID_CREDENTIALS); an inactive user raises
UnauthorizedError(USER_INACTIVE) before the password is compared; on success
last-login is updated, tokens issued, a session created and an audit entry
written.  The response projects the user record as read before the
last-login update, as in the source. -/
def login (db : DB) (secret : String) (now : Nat) (data : LoginRequest) :
    DB × Except ApiError AuthResponse :=
  match db.users.find? (fun u => u.email == data.email) with
  | none => (db, Except.error (UnauthorizedError AUTH_ERRORS.INVALID_CREDENTIALS))
  | some user =>
      if user.isActive = false then
        (db, Except.error (UnauthorizedError AUTH_ERRORS.USER_INACTIVE))
      else if bcryptCompare data.password user.password = false then
        (db, Except.error (UnauthorizedError AUTH_ERRORS.INVALID_CREDENTIALS))
      else
        let db1 := { db with users := db.users.map (fun v : User =>
          if v.id == user.id then { v with lastLogin := some now } else v) }
        let tokens := generateTokens user secret now db1.nextToken
        let db2 := { db1 with nextToken := db1.nextToken + 1 }
        let db3 := createSession db2 user.id tokens.refreshToken data.rememberMe now
        let db4 := logAuditEvent db3 user.id "login" now
        (db4, Except.ok { user := transformUserToResponse user, tokens := tokens })

/-- The `prisma.session.findUnique({ where: { refreshToken }, include: user })`
join.  The user row exists for every session by the foreign-key constraint;
on a store violating that constraint the source would fault, so the model
collapses that unreachable case to a missing result. -/
def findSessionWithUser (db : DB) (rt : Nat) : Option (Session × User) :=
  match db.sessions.find? (fun s => s.refreshToken == rt) with
  | none => none
  | some s =>
      match db.users.find? (fun u => u.id == s.userId) with
      | none => none
      | some u => some (s, u)

/-- refreshToken: looks the session up by the supplied token; missing,
revoked or expired (strictly earlier than now) sessions raise
UnauthorizedError(INVALID_TOKEN); an inactive owner raises
UnauthorizedError(USER_INACTIVE); otherwise a fresh pair is issued and the
session row is updated in place with the new token value and timestamp. -/
def refreshToken (db : DB) (secret : String) (now : Nat) (data : RefreshTokenRequest) :
    DB × Except ApiError AuthResponse :=
  match findSessionWithUser db data.refreshToken with
  | none => (db, Except.error (UnauthorizedError AUTH_ERRORS.INVALID_TOKEN))
  | some (session, user) =>
      if session.isRevoked || decide (session.expiresAt < now) then
        (db, Except.error (UnauthorizedError AUTH_ERRORS.INVALID_TOKEN))
      else if user.isActive = false then
        (db, Except.error (UnauthorizedError AUTH_ERRORS.USER_INACTIVE))
      else
        let tokens := generateTokens user secret now db.nextToken
        let db1 := { db with nextToken := db.nextToken + 1 }
        let db2 := { db1 with sessions := db1.sessions.map (fun s : Session =>
          if s.id == session.id then
            { s with refreshToken := tokens.refreshToken, updatedAt := now }
          else s) }
        (db2, Except.ok { user := transformUserToResponse user, tokens := tokens })

/-- logout: looks the session up by token; when absent the call returns with
no store change and no error; when present the row is updated to revoked
(never deleted) and an audit entry is written. -/
def logout (db : DB) (now : Nat) (refreshToken : Nat) : DB :=
  match db.sessions.find? (fun s => s.refreshToken == refreshToken) with
  | none => db
  | some session =>
      let db1 := { db with sessions := db.sessions.map (fun s : Session =>
        if s.id == session.id then { s with isRevoked := true } else s) }
      logAuditEvent db1 session.userId "logout" now

/-- changePassword: missing user raises NotFoundError(USER_NOT_FOUND); a
current-password mismatch raises UnauthorizedError with the literal message
of the source; otherwise one transaction updates the password hash and sets
the revoked flag on every non-revoked session of the user, then an audit
entry is written. -/
def changePassword (db : DB) (now : Nat) (userId : String)
    (data : ChangePasswordRequest) : DB × Except ApiError Unit :=
  match db.users.find? (fun u => u.id == userId) with
  | none => (db, Except.error (NotFoundError AUTH_ERRORS.USER_NOT_FOUND))
  | some user =>
      if bcryptCompare data.currentPassword user.password = false then
        (db, Except.error (UnauthorizedError "Current password is incorrect"))
      else
        let hashedPassword := bcryptHash data.newPassword saltRounds
        let db1 := { db with
          users := db.users.map (fun u : User =>
            if u.id == userId then { u with password := hashedPassword } else u),
          sessions := db.sessions.map (fun s : Session =>
            if s.userId == userId && s.isRevoked == false then
              { s with isRevoked := true }
            else s) }
        let db2 := logAuditEvent db1 userId "password_change" now
        (db2, Except.ok ())

/-- verifyToken: verifies the JWT; in the catch clause the
`instanceof JsonWebTokenError` test runs first and TokenExpiredError is a
subclass of JsonWebTokenError, so every jwt verify error maps to
UnauthorizedError(INVALID_TOKEN) and the TOKEN_EXPIRED branch is dead code.
A decoded payload with a falsy subject raises INVALID_TOKEN; a missing or
inactive user raises USER_NOT_FOUND; otherwise the user with roles is
returned.  The final branch mirrors the rethrow of a non-jwt error (shaped
by the centralized responder); it is unreachable. -/
def verifyToken (db : DB) (secret : String) (now : Nat) (token : AccessToken) :
    Except ApiError User :=
  match jwtVerify token secret now with
  | Except.error e =>
      if e.instanceOfJsonWebTokenError then
        Except.error (UnauthorizedError AUTH_ERRORS.INVALID_TOKEN)
      else if e.instanceOfTokenExpiredError then
        Except.error (UnauthorizedError AUTH_ERRORS.TOKEN_EXPIRED)
      else
        Except.error (InternalServerError "Internal server error")
  | Except.ok decoded =>
      if decoded.sub == "" then
        Except.error (UnauthorizedError AUTH_ERRORS.INVALID_TOKEN)
      else
        match db.users.find? (fun u => u.id == decoded.sub) with
        | none => Except.error (UnauthorizedError AUTH_ERRORS.USER_NOT_FOUND)
        | some user =>
            if user.isActive = false then
              Except.error (UnauthorizedError AUTH_ERRORS.USER_NOT_FOUND)
            else
              Except.ok user

end AuthService

/-! ## Auth middleware (src/common/middlewares/authMiddleware.ts) -/

/-- Outcome of a middleware: pass the request on, or raise an error that the
centralized responder turns into the wire format. -/
inductive MiddlewareOutcome where
  | next
  | error (e : ApiError)
deriving Repr, DecidableEq

/-- authorize(roles): a missing attached user raises
UnauthorizedError(UNAUTHORIZED); an attached user holding none of the
required role names raises UnauthorizedError(INSUFFICIENT_PERMISSIONS);
otherwise the request passes through. -/
def authorize (roles : List String) (reqUser : Option User) : MiddlewareOutcome :=
  match reqUser with
  | none => MiddlewareOutcome.error (UnauthorizedError AUTH_ERRORS.UNAUTHORIZED)
  | some user =>
      if userHasAnyRole user roles = false then
        MiddlewareOutcome.error (UnauthorizedError AUTH_ERRORS.INSUFFICIENT_PERMISSIONS)
      else
        MiddlewareOutcome.next

/-! ## Store well-formedness

Invariants the schema enforces: the refresh-token column is unique
(injectivity over the session rows), every stored token was drawn from the
entropy source (so every stored token is below the next draw), and every
session references an existing user (foreign key). -/

def DB.wf (db : DB) : Prop :=
  (∀ a ∈ db.sessions, ∀ b ∈ db.sessions, a.refreshToken = b.refreshToken → a = b) ∧
  (∀ s ∈ db.sessions, s.refreshToken < db.nextToken) ∧
  (∀ s ∈ db.sessions, (db.users.find? (fun u => u.id == s.userId)).isSome)

instance (db : DB) : Decidable db.wf := by
  unfold DB.wf
  infer_instance

/-- Boolean success test on an Except result. -/
def exceptIsOk {ε α : Type} : Except ε α → Bool
  | Except.ok _ => true
  | Except.error _ => false

/-! ## Concrete fixtures used by witnesses and counterexamples -/

def plainRole : Role := { id := "role-user", name := "user", displayName := "User" }

def sampleUser : User :=
  { id := "u1", email := "test@example.com", username := some "testuser",
    password := bcryptHash "test123!" 12, firstName := some "Test",
    lastName := some "User", isActive := true, lastLogin := none,
    createdAt := 0, updatedAt := 0, userRoles := [{ role := plainRole }] }

def inactiveUser : User :=
  { sampleUser with
    id := "u2", email := "off@example.com",
    username := some "offuser", isActive := false }

def sampleSession : Session :=
  { id := 1, userId := "u1", refreshToken := 7, expiresAt := 1000,
    isRevoked := false, createdAt := 0, updatedAt := 0 }

def sampleDb : DB :=
  { users := [sampleUser, inactiveUser], sessions := [sampleSession],
    auditLogs := [], nextUserId := 3, nextSessionId := 2, nextToken := 8 }

/-! ## Spec predicates for the refresh-token claims -/

/-- Outcome required of a successful refresh rotation: some response is
returned whose refresh token is the fresh draw; the store keeps the same
number of session rows; the matched row reappears with the same id, user,
expiry, revocation state and creation time, its token replaced by the newly
issued value and its update time set to now; and a second refresh with the
pre-rotation token against the resulting store fails with the 401
invalid-token error (single-use semantics). -/
def rotationOutcome (db : DB) (secret : String) (now rt : Nat) (session : Session) : Prop :=
  ∃ resp,
    (AuthService.refreshToken db secret now { refreshToken := rt }).2 = Except.ok resp ∧
    resp.tokens.refreshToken = db.nextToken ∧
    (AuthService.refreshToken db secret now { refreshToken := rt }).1.sessions.length
      = db.sessions.length ∧
    ({ session with refreshToken := resp.tokens.refreshToken, updatedAt := now } : Session)
      ∈ (AuthService.refreshToken db secret now { refreshToken := rt }).1.sessions ∧
    (AuthService.refreshToken
        ((AuthService.refreshToken db secret now { refreshToken := rt }).1)
        secret now { refreshToken := rt }).2
      = Except.error (UnauthorizedError AUTH_ERRORS.INVALID_TOKEN)

/-- The failure conditions of refreshToken, with the expiry comparison as the
source implements it: the stored expiry is strictly earlier than now. -/
def refreshFailureConditions (db : DB) (now rt : Nat) : Prop :=
  db.sessions.find? (fun s => s.refreshToken == rt) = none ∨
  ∃ session, db.sessions.find? (fun s => s.refreshToken == rt) = some session ∧
    (session.isRevoked = true ∨ session.expiresAt < now ∨
     ∃ user, db.users.find? (fun u => u.id == session.userId) = some user ∧
       user.isActive = false)

/-- The full property asserted of refreshToken over a well-formed store: the
call fails exactly under the failure conditions, and every failing call
returns an UnauthorizedError (status 401, code UNAUTHORIZED) and leaves the
store unchanged. -/
def refreshUnauthorizedSpec (db : DB) (secret : String) (now rt : Nat) : Prop :=
  ((∃ e, (AuthService.refreshToken db secret now { refreshToken := rt }).2 = Except.error e)
    ↔ refreshFailureConditions db now rt) ∧
  (∀ e, (AuthService.refreshToken db secret now { refreshToken := rt }).2 = Except.error e →
    (AuthService.refreshToken db secret now { refreshToken := rt }).1 = db ∧
    e.statusCode = 401 ∧ e.code = "UNAUTHORIZED")

/-! ## Claim theorems -/

/-- C5: login with an unknown email and login with a known active email but a
non-matching password produce the identical user-facing error value: the same
UnauthorizedError, hence the same kind, status 401, code UNAUTHORIZED and
message INVALID_CREDENTIALS, so the response does not reveal which of the two
checks failed. -/
theorem login_unknown_email_and_wrong_password_identical
    (db : DB) (secret : String) (now : Nat)
    (badEmail p1 p2 : String) (rm1 rm2 : Bool) (user : User)
    (hnone : db.users.find? (fun u => u.email == badEmail) = none)
    (hsome : db.users.find? (fun u => u.email == user.email) = some user)
    (hactive : user.isActive = true)
    (hmismatch : bcryptCompare p2 user.password = false) :
    (AuthService.login db secret now
        { email := badEmail, password := p1, rememberMe := rm1 }).2
      = Except.error (UnauthorizedError AUTH_ERRORS.INVALID_CREDENTIALS) ∧
    (AuthService.login db secret now
        { email := user.email, password := p2, rememberMe := rm2 }).2
      = Except.error (UnauthorizedError AUTH_ERRORS.INVALID_CREDENTIALS) := by
  constructor
  · unfold AuthService.login
    simp only [hnone]
  · unfold AuthService.login
    simp only [hsome, hactive, hmismatch]
    simp

/-- Witness for C5 at a concrete store. -/
theorem login_unknown_email_and_wrong_password_identical_witness :
    sampleDb.users.find? (fun u => u.email == "nobody@example.com") = none ∧
    sampleDb.users.find? (fun u => u.email == sampleUser.email) = some sampleUser ∧
    sampleUser.isActive = true ∧
    bcryptCompare "wrong" sampleUser.password = false ∧
    ((AuthService.login sampleDb "k" 5
        { email := "nobody@example.com", password := "x", rememberMe := false }).2
      = Except.error (UnauthorizedError AUTH_ERRORS.INVALID_CREDENTIALS) ∧
     (AuthService.login sampleDb "k" 5
        { email := sampleUser.email, password := "wrong", rememberMe := false }).2
      = Except.error (UnauthorizedError AUTH_ERRORS.INVALID_CREDENTIALS)) :=
  ⟨by decide, by decide, by decide, by decide,
   login_unknown_email_and_wrong_password_identical sampleDb "k" 5
     "nobody@example.com" "x" "wrong" false false sampleUser
     (by decide) (by decide) (by decide) (by decide)⟩

/-- C10: for an identity whose active flag is false, login fails with the
distinct deactivated Unauthorized error whatever password is supplied; the
whole call result is independent of the password, because the inactive check
runs before password verification. -/
theorem login_inactive_independent_of_password
    (db : DB) (secret : String) (now : Nat) (p1 p2 : String) (rm : Bool) (user : User)
    (hsome : db.users.find? (fun u => u.email == user.email) = some user)
    (hinactive : user.isActive = false) :
    AuthService.login db secret now { email := user.email, password := p1, rememberMe := rm }
      = AuthService.login db secret now { email := user.email, password := p2, rememberMe := rm } ∧
    (AuthService.login db secret now { email := user.email, password := p1, rememberMe := rm }).2
      = Except.error (UnauthorizedError AUTH_ERRORS.USER_INACTIVE) := by
  unfold AuthService.login
  simp only [hsome, hinactive]
  simp

/-- Witness for C10 at a concrete store. -/
theorem login_inactive_independent_of_password_witness :
    sampleDb.users.find? (fun u => u.email == inactiveUser.email) = some inactiveUser ∧
    inactiveUser.isActive = false ∧
    (AuthService.login sampleDb "k" 5
        { email := inactiveUser.email, password := "test123!", rememberMe := false }
      = AuthService.login sampleDb "k" 5
        { email := inactiveUser.email, password := "totally-wrong", rememberMe := false } ∧
     (AuthService.login sampleDb "k" 5
        { email := inactiveUser.email, password := "test123!", rememberMe := false }).2
      = Except.error (UnauthorizedError AUTH_ERRORS.USER_INACTIVE)) :=
  ⟨by decide, by decide,
   login_inactive_independent_of_password sampleDb "k" 5 "test123!" "totally-wrong"
     false inactiveUser (by decide) (by decide)⟩

/-- Helper: the any/contains combination in userHasAnyRole is the
exists-a-held-required-role predicate. -/
theorem userHasAnyRole_iff (user : User) (required : List String) :
    userHasAnyRole user required = true ↔
      ∃ ur ∈ user.userRoles, ur.role.name ∈ required := by
  unfold userHasAnyRole
  simp [List.any_eq_true]

/-- C9: authorize, run after authenticate so an identity is attached, passes
the request through exactly when the identity holds at least one required
role name, and otherwise raises the insufficient-permissions
UnauthorizedError, whose status is 401. -/
theorem authorize_any_required_role (user : User) (required : List String) :
    (authorize required (some user) = MiddlewareOutcome.next ↔
      ∃ ur ∈ user.userRoles, ur.role.name ∈ required) ∧
    ((¬ ∃ ur ∈ user.userRoles, ur.role.name ∈ required) →
      authorize required (some user)
        = MiddlewareOutcome.error (UnauthorizedError AUTH_ERRORS.INSUFFICIENT_PERMISSIONS) ∧
      (UnauthorizedError AUTH_ERRORS.INSUFFICIENT_PERMISSIONS).statusCode = 401) := by
  constructor
  · unfold authorize
    by_cases h : userHasAnyRole user required = true
    · simp [h, (userHasAnyRole_iff user required).mp h]
    · have hf : userHasAnyRole user required = false := by
        cases hb : userHasAnyRole user required
        · rfl
        · exact absurd hb h
      simp only [hf]
      simp only [userHasAnyRole_iff] at h
      simp [h]
  · intro hnone
    have hf : userHasAnyRole user required = false := by
      cases hb : userHasAnyRole user required
      · rfl
      · exact absurd ((userHasAnyRole_iff user required).mp hb) hnone
    unfold authorize
    simp [hf]
    rfl

/-- Witness for C9: a non-admin identity is rejected by authorize of the
admin role with the 401 insufficient-permissions error. -/
theorem authorize_any_required_role_witness :
    (¬ ∃ ur ∈ sampleUser.userRoles, ur.role.name ∈ ["admin"]) ∧
    (authorize ["admin"] (some sampleUser)
        = MiddlewareOutcome.error (UnauthorizedError AUTH_ERRORS.INSUFFICIENT_PERMISSIONS) ∧
     (UnauthorizedError AUTH_ERRORS.INSUFFICIENT_PERMISSIONS).statusCode = 401) :=
  ⟨by decide, (authorize_any_required_role sampleUser ["admin"]).2 (by decide)⟩

/-- C4 (code defect): an access token signed with the service secret whose
expiry has elapsed fails verifyToken with the generic INVALID_TOKEN message
rather than the distinct TOKEN_EXPIRED message, because TokenExpiredError is
an instance of JsonWebTokenError and the catch clause tests JsonWebTokenError
first, leaving the TOKEN_EXPIRED branch unreachable; the two messages
differ. -/
theorem verifyToken_expired_gets_invalid_token_message
    (db : DB) (secret sub em : String) (roleList : List String)
    (iat expiry now : Nat) (hexp : expiry ≤ now) :
    AuthService.verifyToken db secret now
        (AccessToken.signed { sub := sub, email := em, roles := roleList } iat expiry secret)
      = Except.error (UnauthorizedError AUTH_ERRORS.INVALID_TOKEN) ∧
    JwtVerifyError.instanceOfJsonWebTokenError (JwtVerifyError.tokenExpiredError expiry) = true ∧
    AUTH_ERRORS.INVALID_TOKEN ≠ AUTH_ERRORS.TOKEN_EXPIRED := by
  refine ⟨?_, rfl, by decide⟩
  unfold AuthService.verifyToken jwtVerify
  simp [hexp, JwtVerifyError.instanceOfJsonWebTokenError]

/-- Witness for C4 at a concrete expired token. -/
theorem verifyToken_expired_gets_invalid_token_message_witness :
    (10 : Nat) ≤ 20 ∧
    (AuthService.verifyToken sampleDb "k" 20
        (AccessToken.signed { sub := "u1", email := "test@example.com",
                              roles := ["user"] } 0 10 "k")
      = Except.error (UnauthorizedError AUTH_ERRORS.INVALID_TOKEN) ∧
     JwtVerifyError.instanceOfJsonWebTokenError (JwtVerifyError.tokenExpiredError 10) = true ∧
     AUTH_ERRORS.INVALID_TOKEN ≠ AUTH_ERRORS.TOKEN_EXPIRED) :=
  ⟨by decide,
   verifyToken_expired_gets_invalid_token_message sampleDb "k" "u1" "test@example.com"
     ["user"] 0 10 20 (by decide)⟩

/-- C7: logout with a token matching no session leaves the store unchanged
and raises no error (the operation has no error outcome at all); with a
matching session it updates that row to revoked in place: the row count is
preserved (nothing is deleted), the matched row reappears with only its
revoked flag set, and every other row is untouched. -/
theorem logout_unknown_noop_known_revokes (db : DB) (now rt : Nat) :
    (db.sessions.find? (fun s => s.refreshToken == rt) = none →
      AuthService.logout db now rt = db) ∧
    (∀ session, db.sessions.find? (fun s => s.refreshToken == rt) = some session →
      (AuthService.logout db now rt).sessions.length = db.sessions.length ∧
      ({ session with isRevoked := true } : Session) ∈ (AuthService.logout db now rt).sessions ∧
      (∀ s ∈ db.sessions, s.id ≠ session.id → s ∈ (AuthService.logout db now rt).sessions)) := by
  constructor
  · intro hnone
    unfold AuthService.logout
    simp [hnone]
  · intro session hsome
    unfold AuthService.logout AuthService.logAuditEvent
    simp only [hsome]
    refine ⟨by simp, ?_, ?_⟩
    · have hmem : session ∈ db.sessions := List.mem_of_find?_eq_some hsome
      simp only [List.mem_map]
      exact ⟨session, hmem, by simp⟩
    · intro s hs hneq
      simp only [List.mem_map]
      refine ⟨s, hs, ?_⟩
      have : (s.id == session.id) = false := by
        simp [hneq]
      simp [this]

/-- Witness for C7: both branches at a concrete store: token 99 matches no
session and is a no-op; token 7 matches the sample session, which is revoked
in place. -/
theorem logout_unknown_noop_known_revokes_witness :
    (sampleDb.sessions.find? (fun s => s.refreshToken == 99) = none ∧
      AuthService.logout sampleDb 5 99 = sampleDb) ∧
    (sampleDb.sessions.find? (fun s => s.refreshToken == 7) = some sampleSession ∧
      (AuthService.logout sampleDb 5 7).sessions.length = sampleDb.sessions.length ∧
      ({ sampleSession with isRevoked := true } : Session) ∈ (AuthService.logout sampleDb 5 7).sessions ∧
      (∀ s ∈ sampleDb.sessions, s.id ≠ sampleSession.id →
        s ∈ (AuthService.logout sampleDb 5 7).sessions)) :=
  ⟨⟨by decide, (logout_unknown_noop_known_revokes sampleDb 5 99).1 (by decide)⟩,
   ⟨by decide, (logout_unknown_noop_known_revokes sampleDb 5 7).2 sampleSession (by decide)⟩⟩

/-- C2: changePassword is atomic over the two writes and leaves the store
untouched on every failure: when the call returns an error the resulting
store is exactly the input store (no password and no session changed), and
when it succeeds the resulting store simultaneously carries the new password
hash on the identity and the revoked flag on every session of that
identity. -/
theorem changePassword_atomic (db : DB) (now : Nat) (userId : String)
    (data : ChangePasswordRequest) :
    (∀ e, (AuthService.changePassword db now userId data).2 = Except.error e →
        (AuthService.changePassword db now userId data).1 = db) ∧
    ((AuthService.changePassword db now userId data).2 = Except.ok () →
      (∀ u ∈ (AuthService.changePassword db now userId data).1.users,
          u.id = userId → u.password = bcryptHash data.newPassword AuthService.saltRounds) ∧
      (∀ s ∈ (AuthService.changePassword db now userId data).1.sessions,
          s.userId = userId → s.isRevoked = true)) := by
  unfold AuthService.changePassword AuthService.logAuditEvent
  cases hfind : db.users.find? (fun u => u.id == userId) with
  | none => simp
  | some user =>
    by_cases hpw : bcryptCompare data.currentPassword user.password = false
    · simp [hpw]
    · have hpw2 : bcryptCompare data.currentPassword user.password = true := by
        cases hb : bcryptCompare data.currentPassword user.password
        · exact absurd hb hpw
        · rfl
      simp only [hpw2, Bool.true_eq_false, if_false, reduceCtorEq, false_implies,
        implies_true, true_and]
      intro _
      constructor
      · intro u hu huid
        simp only [List.mem_map] at hu
        rcases hu with ⟨v, hv, hvu⟩
        by_cases hid : (v.id == userId) = true
        · rw [← hvu]
          simp [hid, bcryptHash]
        · exfalso
          rw [← hvu] at huid
          simp only [Bool.not_eq_true] at hid
          simp [hid] at huid
          simp only [beq_eq_false_iff_ne, ne_eq] at hid
          exact hid huid
      · intro s hs hsid
        simp only [List.mem_map] at hs
        rcases hs with ⟨t, ht, hts⟩
        by_cases hcond : (t.userId == userId && t.isRevoked == false) = true
        · rw [← hts]
          simp only [hcond]
          simp
        · have hc : (t.userId == userId && t.isRevoked == false) = false := by
            cases hb : (t.userId == userId && t.isRevoked == false)
            · rfl
            · exact absurd hb hcond
          rw [← hts] at hsid ⊢
          rw [if_neg hcond] at hsid ⊢
          have hfalse : (t.isRevoked == false) = false := by
            cases hb : (t.isRevoked == false)
            · rfl
            · exfalso
              rw [hsid] at hc
              simp [hb] at hc
          simpa using hfalse

/-- Witness for C2: both branches at concrete stores: a wrong current
password leaves the store unchanged; a matching one atomically rewrites the
hash and revokes the session. -/
theorem changePassword_atomic_witness :
    ((AuthService.changePassword sampleDb 5 "u1"
        { currentPassword := "nope", newPassword := "newpass123" }).2
      = Except.error (UnauthorizedError "Current password is incorrect") →
      True) ∧
    ((AuthService.changePassword sampleDb 5 "u1"
        { currentPassword := "nope", newPassword := "newpass123" }).1 = sampleDb) ∧
    ((∀ u ∈ (AuthService.changePassword sampleDb 5 "u1"
        { currentPassword := "test123!", newPassword := "newpass123" }).1.users,
        u.id = "u1" → u.password = bcryptHash "newpass123" AuthService.saltRounds) ∧
     (∀ s ∈ (AuthService.changePassword sampleDb 5 "u1"
        { currentPassword := "test123!", newPassword := "newpass123" }).1.sessions,
        s.userId = "u1" → s.isRevoked = true)) :=
  ⟨fun _ => trivial,
   (changePassword_atomic sampleDb 5 "u1"
      { currentPassword := "nope", newPassword := "newpass123" }).1
     (UnauthorizedError "Current password is incorrect") rfl,
   (changePassword_atomic sampleDb 5 "u1"
      { currentPassword := "test123!", newPassword := "newpass123" }).2 rfl⟩

/-- C3 is refuted on this store: registering with an email already taken by
an existing identity fails with the 401 UNAUTHORIZED error carrying the
duplicate-email message, not with a 409 CONFLICT error. -/
theorem register_conflict_counterexample :
    (AuthService.register sampleDb "k" 5
        { email := "test@example.com", password := "newpass123",
          firstName := none, lastName := none, username := none }).2
      = Except.error (UnauthorizedError AUTH_ERRORS.EMAIL_ALREADY_EXISTS) ∧
    (UnauthorizedError AUTH_ERRORS.EMAIL_ALREADY_EXISTS).statusCode = 401 ∧
    (UnauthorizedError AUTH_ERRORS.EMAIL_ALREADY_EXISTS).code = "UNAUTHORIZED" ∧
    (UnauthorizedError AUTH_ERRORS.EMAIL_ALREADY_EXISTS).statusCode ≠ HttpStatusCodes.CONFLICT ∧
    (UnauthorizedError AUTH_ERRORS.EMAIL_ALREADY_EXISTS).code ≠ "CONFLICT" :=
  ⟨rfl, rfl, rfl, by decide, by decide⟩

/-- C3 (amended): register fails with the 401 UNAUTHORIZED ApiError carrying
the duplicate-email or duplicate-username message whenever the given email
or username is already taken by an existing identity, leaving the store
unchanged; in particular a duplicate registration never yields
InternalServerError. -/
theorem register_taken_fails_unauthorized
    (db : DB) (secret : String) (now : Nat) (data : RegisterRequest)
    (ex : User) (hmem : ex ∈ db.users)
    (htaken : AuthService.registerMatches data ex = true) :
    ∃ e, (AuthService.register db secret now data).2 = Except.error e ∧
      (AuthService.register db secret now data).1 = db ∧
      e.statusCode = 401 ∧ e.code = "UNAUTHORIZED" ∧
      (e.message = AUTH_ERRORS.EMAIL_ALREADY_EXISTS ∨
       e.message = AUTH_ERRORS.USERNAME_ALREADY_EXISTS) ∧
      e.statusCode ≠ 500 ∧ e.code ≠ "INTERNAL_SERVER_ERROR" := by
  have hsome : (db.users.find? (AuthService.registerMatches data)).isSome := by
    rw [List.find?_isSome]
    exact ⟨ex, hmem, htaken⟩
  cases ho : db.users.find? (AuthService.registerMatches data) with
  | none => rw [ho] at hsome; simp at hsome
  | some ex0 =>
    have hp : AuthService.registerMatches data ex0 = true := List.find?_some ho
    unfold AuthService.register
    simp only [ho]
    by_cases he : (ex0.email == data.email) = true
    · rw [if_pos he]
      exact ⟨_, rfl, rfl, rfl, rfl, Or.inl rfl, by decide, by decide⟩
    · have hef : (ex0.email == data.email) = false := by
        cases hb : (ex0.email == data.email)
        · rfl
        · exact absurd hb he
      rw [if_neg he]
      unfold AuthService.registerMatches at hp
      rw [hef] at hp
      simp only [Bool.false_or] at hp
      cases hu : data.username with
      | none => rw [hu] at hp; simp at hp
      | some un =>
        rw [hu] at hp
        have hju : AuthService.jsStrictEqOpt ex0.username data.username = true := by
          rw [hu]
          cases hex : ex0.username with
          | none => rw [hex] at hp; simp at hp
          | some x =>
            rw [hex] at hp
            unfold AuthService.jsStrictEqOpt
            simpa using hp
        rw [hu] at hju
        rw [if_pos hju]
        exact ⟨_, rfl, rfl, rfl, rfl, Or.inr rfl, by decide, by decide⟩

/-- Witness for C3 at a concrete store with the email already registered. -/
theorem register_taken_fails_unauthorized_witness :
    sampleUser ∈ sampleDb.users ∧
    AuthService.registerMatches
      { email := "test@example.com", password := "newpass123",
        firstName := none, lastName := none, username := none } sampleUser = true ∧
    (∃ e, (AuthService.register sampleDb "k" 5
        { email := "test@example.com", password := "newpass123",
          firstName := none, lastName := none, username := none }).2 = Except.error e ∧
      (AuthService.register sampleDb "k" 5
        { email := "test@example.com", password := "newpass123",
          firstName := none, lastName := none, username := none }).1 = sampleDb ∧
      e.statusCode = 401 ∧ e.code = "UNAUTHORIZED" ∧
      (e.message = AUTH_ERRORS.EMAIL_ALREADY_EXISTS ∨
       e.message = AUTH_ERRORS.USERNAME_ALREADY_EXISTS) ∧
      e.statusCode ≠ 500 ∧ e.code ≠ "INTERNAL_SERVER_ERROR") :=
  ⟨by decide, by decide,
   register_taken_fails_unauthorized sampleDb "k" 5
     { email := "test@example.com", password := "newpass123",
       firstName := none, lastName := none, username := none }
     sampleUser (by decide) (by decide)⟩

/-- C8: issuing a token pair for an identity and immediately passing the
access token to verifyToken yields an identity whose id and role-name list
are exactly the ones encoded into the token payload (the payload carries
`sub = user.id` and `roles = roleNamesOf user`). -/
theorem generate_then_verify_roundtrip
    (db : DB) (secret : String) (now fresh : Nat) (user : User)
    (hfind : db.users.find? (fun u => u.id == user.id) = some user)
    (hactive : user.isActive = true)
    (hsub : user.id ≠ "") :
    ∃ u, AuthService.verifyToken db secret now
          ((AuthService.generateTokens user secret now fresh).accessToken)
        = Except.ok u ∧
      u.id = user.id ∧
      AuthService.roleNamesOf u = AuthService.roleNamesOf user := by
  refine ⟨user, ?_, rfl, rfl⟩
  unfold AuthService.verifyToken AuthService.generateTokens jwtSign jwtVerify
  have hexp : ¬ now + ACCESS_TOKEN_EXPIRES_MS ≤ now := by
    unfold ACCESS_TOKEN_EXPIRES_MS
    omega
  have hbeq : (user.id == "") = false := by
    cases hb : (user.id == "")
    · rfl
    · exact absurd (by simpa using hb) hsub
  simp [hexp, hbeq, hfind, hactive]

/-- Witness for C8 at a concrete store. -/
theorem generate_then_verify_roundtrip_witness :
    sampleDb.users.find? (fun u => u.id == sampleUser.id) = some sampleUser ∧
    sampleUser.isActive = true ∧
    sampleUser.id ≠ "" ∧
    (∃ u, AuthService.verifyToken sampleDb "k" 5
          ((AuthService.generateTokens sampleUser "k" 5 42).accessToken)
        = Except.ok u ∧
      u.id = sampleUser.id ∧
      AuthService.roleNamesOf u = AuthService.roleNamesOf sampleUser) :=
  ⟨by decide, by decide, by decide,
   generate_then_verify_roundtrip sampleDb "k" 5 42 sampleUser
     (by decide) (by decide) (by decide)⟩

/-- Helper: on the success path (session found, owner found, not revoked,
not expired, owner active) refreshToken evaluates to the rotated store and
the fresh token pair. -/
theorem refreshToken_success_eval
    (db : DB) (secret : String) (now rt : Nat) (session : Session) (user : User)
    (hsess : db.sessions.find? (fun s => s.refreshToken == rt) = some session)
    (huser : db.users.find? (fun u => u.id == session.userId) = some user)
    (hrev : session.isRevoked = false)
    (hexp : ¬ session.expiresAt < now)
    (hact : user.isActive = true) :
    AuthService.refreshToken db secret now { refreshToken := rt } =
      ({ db with
         nextToken := db.nextToken + 1,
         sessions := db.sessions.map (fun s : Session =>
           if s.id == session.id then
             { s with refreshToken := db.nextToken, updatedAt := now }
           else s) },
       Except.ok { user := transformUserToResponse user,
                   tokens := AuthService.generateTokens user secret now db.nextToken }) := by
  have hdec : decide (session.expiresAt < now) = false := decide_eq_false hexp
  unfold AuthService.refreshToken AuthService.findSessionWithUser
  simp only [hsess, huser, hrev, hdec, Bool.or_self, hact]
  simp [AuthService.generateTokens]

/-- Helper: after the matched row is rewritten to a token value different
from the supplied one, a lookup by the supplied token finds nothing, because
the token column is injective over the rows and only the matched row carried
that token. -/
theorem find?_token_after_rotation
    (sessions : List Session) (session : Session) (rt nt now : Nat)
    (hinj : ∀ a ∈ sessions, ∀ b ∈ sessions, a.refreshToken = b.refreshToken → a = b)
    (hmem : session ∈ sessions) (htok : session.refreshToken = rt) (hnt : nt ≠ rt) :
    (sessions.map (fun s : Session =>
        if s.id == session.id then { s with refreshToken := nt, updatedAt := now } else s)).find?
      (fun s => s.refreshToken == rt) = none := by
  rw [List.find?_eq_none]
  intro x hx
  rcases List.mem_map.mp hx with ⟨y, hy, hxy⟩
  by_cases hid : (y.id == session.id) = true
  · rw [← hxy, if_pos hid]
    simp [hnt]
  · rw [← hxy, if_neg hid]
    intro hbeq
    have hyt : y.refreshToken = rt := by simpa using hbeq
    have hys : y = session := hinj y hy session hmem (by rw [hyt, htok])
    rw [hys] at hid
    simp at hid

/-- C1: over a well-formed store, for a session reachable by a valid refresh
token (owner active, not revoked, not expired), refreshToken rotates the
stored token value in place: the row keeps its id and expiry, its stored
token becomes the newly issued value, no row is created or deleted, and a
second refresh with the pre-rotation token fails with Unauthorized. -/
theorem refreshToken_rotation_single_use
    (db : DB) (secret : String) (now rt : Nat)
    (hwf : db.wf) (session : Session) (user : User)
    (hsess : db.sessions.find? (fun s => s.refreshToken == rt) = some session)
    (huser : db.users.find? (fun u => u.id == session.userId) = some user)
    (hrev : session.isRevoked = false)
    (hexp : ¬ session.expiresAt < now)
    (hact : user.isActive = true) :
    rotationOutcome db secret now rt session := by
  have heval := refreshToken_success_eval db secret now rt session user
    hsess huser hrev hexp hact
  have hmem : session ∈ db.sessions := List.mem_of_find?_eq_some hsess
  have htok : session.refreshToken = rt := by
    have := List.find?_some hsess
    simpa using this
  have hfresh : rt < db.nextToken := htok ▸ hwf.2.1 session hmem
  have hnt : db.nextToken ≠ rt := by omega
  unfold rotationOutcome
  refine ⟨{ user := transformUserToResponse user,
            tokens := AuthService.generateTokens user secret now db.nextToken },
          ?_, rfl, ?_, ?_, ?_⟩
  · rw [heval]
  · rw [heval]
    simp
  · rw [heval]
    simp only [List.mem_map]
    exact ⟨session, hmem, by simp [AuthService.generateTokens]⟩
  · rw [heval]
    have hnone := find?_token_after_rotation db.sessions session rt db.nextToken now
      hwf.1 hmem htok hnt
    unfold AuthService.refreshToken AuthService.findSessionWithUser
    simp only [hnone]

/-- Witness for C1 at a concrete store. -/
theorem refreshToken_rotation_single_use_witness :
    sampleDb.wf ∧
    sampleDb.sessions.find? (fun s => s.refreshToken == 7) = some sampleSession ∧
    sampleDb.users.find? (fun u => u.id == sampleSession.userId) = some sampleUser ∧
    sampleSession.isRevoked = false ∧
    (¬ sampleSession.expiresAt < 50) ∧
    sampleUser.isActive = true ∧
    rotationOutcome sampleDb "k" 50 7 sampleSession :=
  ⟨by decide, by decide, by decide, by decide, by decide, by decide,
   refreshToken_rotation_single_use sampleDb "k" 50 7 (by decide)
     sampleSession sampleUser (by decide) (by decide) (by decide) (by decide) (by decide)⟩

/-- C6 is refuted at the expiry boundary: a valid session whose stored
expiry equals the current instant satisfies expiry ≤ now, so the claim
requires the call to fail, yet refreshToken succeeds, because the source
compares strictly (expiresAt < now). -/
theorem refreshToken_expiry_boundary_counterexample :
    sampleSession.expiresAt ≤ 1000 ∧
    sampleSession.isRevoked = false ∧
    sampleDb.sessions.find? (fun s => s.refreshToken == 7) = some sampleSession ∧
    exceptIsOk (AuthService.refreshToken sampleDb "k" 1000 { refreshToken := 7 }).2 = true := by
  decide

/-- C6 (amended): over a well-formed store refreshToken fails with
Unauthorized exactly when the supplied token matches no session row, or the
matched session is revoked, or its expiry timestamp is strictly earlier than
now, or the owning identity is inactive; every failing call returns a 401
UNAUTHORIZED error and modifies no state. -/
theorem refreshToken_unauthorized_conditions
    (db : DB) (secret : String) (now rt : Nat) (hwf : db.wf) :
    refreshUnauthorizedSpec db secret now rt := by
  unfold refreshUnauthorizedSpec refreshFailureConditions
  cases hs : db.sessions.find? (fun s => s.refreshToken == rt) with
  | none =>
    have heval : AuthService.refreshToken db secret now { refreshToken := rt }
        = (db, Except.error (UnauthorizedError AUTH_ERRORS.INVALID_TOKEN)) := by
      unfold AuthService.refreshToken AuthService.findSessionWithUser
      simp only [hs]
    rw [heval]
    refine ⟨⟨fun _ => Or.inl rfl, fun _ => ⟨_, rfl⟩⟩, ?_⟩
    intro e he
    have hee : UnauthorizedError AUTH_ERRORS.INVALID_TOKEN = e := by simpa using he
    subst hee
    exact ⟨rfl, rfl, rfl⟩
  | some session =>
    have hsmem : session ∈ db.sessions := List.mem_of_find?_eq_some hs
    have husome := hwf.2.2 session hsmem
    cases hu : db.users.find? (fun u => u.id == session.userId) with
    | none => rw [hu] at husome; simp at husome
    | some user =>
      by_cases hcond : (session.isRevoked || decide (session.expiresAt < now)) = true
      · have heval : AuthService.refreshToken db secret now { refreshToken := rt }
            = (db, Except.error (UnauthorizedError AUTH_ERRORS.INVALID_TOKEN)) := by
          unfold AuthService.refreshToken AuthService.findSessionWithUser
          simp only [hs, hu, hcond, if_true]
        rw [heval]
        have hfail : session.isRevoked = true ∨ session.expiresAt < now := by
          cases hb : session.isRevoked
          · right
            have hd : decide (session.expiresAt < now) = true := by
              rw [hb] at hcond
              simpa using hcond
            exact of_decide_eq_true hd
          · exact Or.inl rfl
        refine ⟨⟨fun _ => Or.inr ⟨session, rfl, ?_⟩, fun _ => ⟨_, rfl⟩⟩, ?_⟩
        · rcases hfail with h | h
          · exact Or.inl h
          · exact Or.inr (Or.inl h)
        · intro e he
          have hee : UnauthorizedError AUTH_ERRORS.INVALID_TOKEN = e := by simpa using he
          subst hee
          exact ⟨rfl, rfl, rfl⟩
      · have hcf : (session.isRevoked || decide (session.expiresAt < now)) = false := by
          cases hb : (session.isRevoked || decide (session.expiresAt < now))
          · rfl
          · exact absurd hb hcond
        have hrev : session.isRevoked = false := by
          cases hb : session.isRevoked
          · rfl
          · rw [hb] at hcf; simp at hcf
        have hexpdec : decide (session.expiresAt < now) = false := by
          cases hb : decide (session.expiresAt < now)
          · rfl
          · rw [hb] at hcf; simp at hcf
        have hexp : ¬ session.expiresAt < now := of_decide_eq_false hexpdec
        by_cases hact : user.isActive = false
        · have heval : AuthService.refreshToken db secret now { refreshToken := rt }
              = (db, Except.error (UnauthorizedError AUTH_ERRORS.USER_INACTIVE)) := by
            unfold AuthService.refreshToken AuthService.findSessionWithUser
            simp only [hs, hu, hcf, Bool.false_eq_true, if_false, hact, if_true]
          rw [heval]
          refine ⟨⟨fun _ => Or.inr ⟨session, rfl, Or.inr (Or.inr ⟨user, hu, hact⟩)⟩,
                   fun _ => ⟨_, rfl⟩⟩, ?_⟩
          intro e he
          have hee : UnauthorizedError AUTH_ERRORS.USER_INACTIVE = e := by simpa using he
          subst hee
          exact ⟨rfl, rfl, rfl⟩
        · have hact2 : user.isActive = true := by
            cases hb : user.isActive
            · exact absurd hb hact
            · rfl
          have heval := refreshToken_success_eval db secret now rt session user
            hs hu hrev hexp hact2
          rw [heval]
          constructor
          · constructor
            · rintro ⟨e, he⟩
              simp at he
            · rintro (h | ⟨session2, hs2, hconds⟩)
              · exact absurd h (by simp)
              · exfalso
                have hses : session = session2 := by
                  injection hs2
                subst hses
                rcases hconds with hrv | hex | ⟨user2, hu2, hia⟩
                · rw [hrv] at hrev; exact absurd hrev (by simp)
                · exact hexp hex
                · have huu : user = user2 := by
                    rw [hu] at hu2
                    injection hu2
                  subst huu
                  rw [hia] at hact2
                  exact absurd hact2 (by simp)
          · intro e he
            simp at he

/-- Witness for C6 at a concrete well-formed store. -/
theorem refreshToken_unauthorized_conditions_witness :
    sampleDb.wf ∧ refreshUnauthorizedSpec sampleDb "k" 2000 7 :=
  ⟨by decide, refreshToken_unauthorized_conditions sampleDb "k" 2000 7 (by decide)⟩
